import Mathlib

set_option maxRecDepth 20000

/-! Shallow embedding of the normalization-and-formatting core of the
energy-mcp-experimental repository: the UK-postcode and temporal
normalizers of src/energy_mcp_experimental/tools/validators.py and the
schema-less telemetry formatter format_device_state of
src/energy_mcp_experimental/servers/vaillant.py.

Python machine-level conventions modelled explicitly:
* telemetry values form the closed variant num / bool / str / dict;
  numbers are embedded as integers (claims do not exercise float rendering);
* Python treats bool as a subclass of int, so an isinstance((int, float))
  test accepts booleans: Value.isPyNumber reflects that;
* string case functions (upper, lower, isupper) are modelled on ASCII,
  which covers every input the embedded code and the claims exercise. -/

/-- A Python value occurring in a telemetry record: the closed variant
number / boolean / text / nested mapping.  Mappings are insertion-ordered
lists of key-value pairs, mirroring Python dict iteration order. -/
inductive Value where
  | num (n : Int)
  | bool (b : Bool)
  | str (s : String)
  | dict (entries : List (String × Value))

/-- A telemetry record: a Python dict with string keys. -/
abbrev Record := List (String × Value)

/-- isinstance(v, (int, float)) in Python: true for numbers AND booleans,
because bool is a subclass of int. -/
def Value.isPyNumber : Value → Bool
  | .num _ => true
  | .bool _ => true
  | _ => false

/-- isinstance(v, bool). -/
def Value.isBool : Value → Bool
  | .bool _ => true
  | _ => false

/-- isinstance(v, str). -/
def Value.isStr : Value → Bool
  | .str _ => true
  | _ => false

/-- isinstance(v, dict). -/
def Value.isDict : Value → Bool
  | .dict _ => true
  | _ => false

/-- A value only of the numeric kind (excludes booleans, unlike Python's
isinstance test). -/
def Value.isNum : Value → Bool
  | .num _ => true
  | _ => false

/-- Python truthiness of a value ("if value:"). -/
def Value.pyTruthy : Value → Bool
  | .num n => n != 0
  | .bool b => b
  | .str s => s != ""
  | .dict es => !es.isEmpty

mutual
/-- Python repr() of a value, as used when a value is rendered inside a
dict's textual form.  Strings are quoted; escaping of special characters
inside strings is not modelled (no claim exercises it). -/
def Value.pyRepr : Value → String
  | .num n => toString n
  | .bool b => if b then "True" else "False"
  | .str s => "\x27" ++ s ++ "\x27"
  | .dict es => "\x7b" ++ reprEntries es ++ "\x7d"

/-- Comma-separated repr of dict entries, as Python renders dict bodies. -/
def reprEntries : List (String × Value) → String
  | [] => ""
  | [(k, v)] => "\x27" ++ k ++ "\x27: " ++ Value.pyRepr v
  | (k, v) :: rest => "\x27" ++ k ++ "\x27: " ++ Value.pyRepr v ++ ", " ++ reprEntries rest
end

/-- Python str() of a value, as produced by an f-string interpolation:
a string interpolates as itself, a dict as its repr. -/
def Value.pyStr : Value → String
  | .num n => toString n
  | .bool b => if b then "True" else "False"
  | .str s => s
  | .dict es => "\x7b" ++ reprEntries es ++ "\x7d"

example : Value.pyStr (.num 21) = "21" := by decide
example : Value.pyStr (.dict [("a", .num 1), ("b", .str "x")]) = "\x7b\x27a\x27: 1, \x27b\x27: \x27x\x27\x7d" := by decide

/-! String helpers mirroring the Python primitives used by the code. -/

/-- The ASCII whitespace class of the regex \s: space, tab, newline,
carriage return, vertical tab, form feed. -/
def py_is_space (c : Char) : Bool :=
  c == ' ' || c == '\t' || c == '\n' || c == '\r' || c == '\x0b' || c == '\x0c'

/-- Drop the leading characters of the Python whitespace class. -/
def dropSpaceL : List Char → List Char
  | [] => []
  | c :: cs => if py_is_space c then dropSpaceL cs else c :: cs

/-- Python's str.strip(): remove leading and trailing whitespace. -/
def py_strip (s : String) : String :=
  String.mk ((dropSpaceL (dropSpaceL s.toList).reverse).reverse)

/-- Python's str.lower() on ASCII input. -/
def py_lower (s : String) : String :=
  String.mk (s.toList.map Char.toLower)

/-- Python's str.upper() on ASCII input. -/
def py_upper (s : String) : String :=
  String.mk (s.toList.map Char.toUpper)

/-- Does the pattern (first argument) occur at the head of the list? -/
def startsWithL : List Char → List Char → Bool
  | [], _ => true
  | _ :: _, [] => false
  | p :: ps, c :: cs => p == c && startsWithL ps cs

/-- Does the pattern occur as a contiguous run anywhere in the list?
This is Python's "pat in s" substring test. -/
def hasSubL (pat : List Char) : List Char → Bool
  | [] => pat.isEmpty
  | c :: cs => startsWithL pat (c :: cs) || hasSubL pat cs

/-- Python's "pat in s" substring containment test. -/
def strContainsSub (s pat : String) : Bool :=
  hasSubL pat.toList s.toList

/-- Fuel-indexed core of Python's str.replace: scan left to right and
replace each non-overlapping occurrence of the (nonempty) pattern.  The
fuel is the length of the scanned list, which suffices because every step
consumes at least one character. -/
def replaceAllAux (pat repl : List Char) : Nat → List Char → List Char
  | _, [] => []
  | 0, l => l
  | fuel + 1, c :: cs =>
    if startsWithL pat (c :: cs) then
      repl ++ replaceAllAux pat repl fuel (List.drop pat.length (c :: cs))
    else
      c :: replaceAllAux pat repl fuel cs

/-- Python's str.replace(pat, repl) for a nonempty pattern.  The
empty-pattern case (where Python interleaves the replacement between all
characters) never arises in the embedded code and is modelled as the
identity. -/
def pyReplace (s pat repl : String) : String :=
  if pat.isEmpty then s
  else String.mk (replaceAllAux pat.toList repl.toList s.toList.length s.toList)

/-- The generator expression of format_device_state:
"".join(" " + char if char.isupper() else char for char in name). -/
def spaceBeforeUppers (s : String) : String :=
  String.mk (s.toList.flatMap fun c => if c.isUpper then [' ', c] else [c])

/-- Python's str.capitalize(): uppercase the first character, lowercase
all the others. -/
def pyCapitalize (s : String) : String :=
  match s.toList with
  | [] => ""
  | c :: cs => String.mk (c.toUpper :: cs.map Char.toLower)

example : strContainsSub (py_lower "outdoorTemperature") "temperature" = true := by decide
example : pyReplace "roomTemperatureTarget" "Temperature" " Temperature" = "room TemperatureTarget" := by decide
example : pyCapitalize (py_strip (spaceBeforeUppers "room TemperatureTarget")) = "Room  temperature target" := by decide

/-! Postcode normalizer: validate_and_parse_postcode of tools/validators.py. -/

/-- The character class [A-Z] of the postcode regex. -/
def isAZ (c : Char) : Bool := 'A' ≤ c && c ≤ 'Z'

/-- The character class \d of the postcode regex (ASCII digits). -/
def isDigitC (c : Char) : Bool := c.isDigit

/-- The outward-code regex [A-Z]{1,2}\d{1,2}[A-Z]? matched against the whole
character list.  Letters and digits are disjoint character classes, so the
regex admits a unique decomposition and this case enumeration over the
possible lengths (2 to 5) is exactly its language. -/
def outwardShape : List Char → Bool
  | [a, b] => isAZ a && isDigitC b
  | [a, b, c] =>
    isAZ a && ((isAZ b && isDigitC c) || (isDigitC b && (isDigitC c || isAZ c)))
  | [a, b, c, d] =>
    isAZ a && ((isAZ b && isDigitC c && (isDigitC d || isAZ d)) ||
               (isDigitC b && isDigitC c && isAZ d))
  | [a, b, c, d, e] => isAZ a && isAZ b && isDigitC c && isDigitC d && isAZ e
  | _ => false

/-- The inward-code regex \d[A-Z]{2} matched against the whole list. -/
def inwardShape : List Char → Bool
  | [a, b, c] => isDigitC a && isAZ b && isAZ c
  | _ => false

/-- re.sub(r"\s+", "", postcode).upper(): remove every whitespace character
and uppercase the remainder. -/
def strip_spaces_upper (s : String) : String :=
  String.mk ((s.toList.filter fun c => !py_is_space c).map Char.toUpper)

/-- validate_and_parse_postcode of tools/validators.py.  The full-postcode
regex ^(outward)(inward)$ has a three-character anchored inward part, so a
match always splits the cleaned string into its first (length - 3)
characters (the captured outward group) and its last three. -/
def validate_and_parse_postcode (postcode : String) : Option String :=
  if postcode = "" then none
  else
    let p := strip_spaces_upper postcode
    let l := p.toList
    let outLen := l.length - 3
    if outwardShape (l.take outLen) && inwardShape (l.drop outLen) then
      some (String.mk (l.take outLen))
    else if outwardShape l then
      some p
    else
      none

/-- Modelled from the spec (section 4.1): after the digits, the outward
grammar allows "optional trailing letter" and then the end of the string. -/
def spec_tail : List Char → Bool
  | [] => true
  | [c] => isAZ c
  | _ => false

/-- Modelled from the spec (section 4.1): the "1-2 digits, optional
trailing letter" part of the outward grammar: one digit, optionally a
second digit, then the optional trailing letter and the end. -/
def spec_after_letters : List Char → Bool
  | [] => false
  | d :: rest =>
    isDigitC d &&
    (spec_tail rest ||
      (match rest with
       | d2 :: rest2 => isDigitC d2 && spec_tail rest2
       | [] => false))

/-- Modelled from the spec (section 4.1), for comparison with the source
regex: the outward grammar "1-2 letters, 1-2 digits, optional trailing
letter" read as an alternation: one letter, optionally a second letter,
then digits and the optional trailing letter. -/
def spec_outward_shape : List Char → Bool
  | [] => false
  | a :: rest =>
    isAZ a &&
    (spec_after_letters rest ||
      (match rest with
       | b :: rest2 => isAZ b && spec_after_letters rest2
       | [] => false))

/-- Modelled from the spec (section 4.1): reject empty input, strip all
whitespace and uppercase, try the full-postcode grammar (outward followed
by inward = exactly one digit and two letters) returning the outward
portion, then the outward-only grammar returning the string itself,
otherwise Invalid. -/
def normalize_postcode_spec (raw : String) : Option String :=
  if raw = "" then none
  else
    let p := strip_spaces_upper raw
    let l := p.toList
    if spec_outward_shape (l.take (l.length - 3)) && inwardShape (l.drop (l.length - 3)) then
      some (String.mk (l.take (l.length - 3)))
    else if spec_outward_shape l then
      some p
    else
      none

/-- The spec's reading of the outward grammar coincides with the source
regex ^[A-Z]{1,2}\d{1,2}[A-Z]?$ case enumeration. -/
theorem spec_outward_eq_outward : ∀ l, spec_outward_shape l = outwardShape l
  | [] => rfl
  | [a] => by
    simp only [spec_outward_shape, spec_after_letters, spec_tail, outwardShape]
    cases isAZ a <;> rfl
  | [a, b] => by
    simp only [spec_outward_shape, spec_after_letters, spec_tail, outwardShape]
    cases isAZ a <;> cases isAZ b <;> cases isDigitC b <;> rfl
  | [a, b, c] => by
    simp only [spec_outward_shape, spec_after_letters, spec_tail, outwardShape]
    cases isAZ a <;> cases isAZ b <;> cases isDigitC b <;>
      cases isAZ c <;> cases isDigitC c <;> rfl
  | [a, b, c, d] => by
    simp only [spec_outward_shape, spec_after_letters, spec_tail, outwardShape]
    cases isAZ a <;> cases isAZ b <;> cases isDigitC b <;>
      cases isDigitC c <;> cases isAZ d <;> cases isDigitC d <;> rfl
  | [a, b, c, d, e] => by
    simp only [spec_outward_shape, spec_after_letters, spec_tail, outwardShape]
    cases isAZ a <;> cases isAZ b <;> cases isDigitC b <;>
      cases isDigitC c <;> cases isDigitC d <;> cases isAZ e <;> rfl
  | a :: b :: c :: d :: e :: f :: r => by
    simp [spec_outward_shape, spec_after_letters, spec_tail, outwardShape]

example : validate_and_parse_postcode "SW1A 1AA" = some "SW1A" := by decide
example : validate_and_parse_postcode "SW1A1AA" = some "SW1A" := by decide
example : validate_and_parse_postcode "sw1a" = some "SW1A" := by decide
example : validate_and_parse_postcode "M1 1AA" = some "M1" := by decide
example : validate_and_parse_postcode "123" = none := by decide
example : validate_and_parse_postcode "" = none := by decide

/-! Temporal normalizers: validate_and_parse_date and validate_datetime of
tools/validators.py.  Both delegate to Python's datetime.fromisoformat,
modelled below for the extended ISO-8601 shapes the library accepts across
the supported interpreter versions: YYYY-MM-DD, optionally followed by a
separator character and HH[:MM[:SS]], optionally followed by a UTC offset
+HH:MM, -HH:MM, +HH:MM:SS or -HH:MM:SS.  Fractional seconds and the
basic (dash-free) format are not modelled; no claim exercises them. -/

/-- A parsed datetime value: calendar fields plus an optional fixed UTC
offset in seconds (none = naive datetime). -/
structure PyDateTime where
  year : Nat
  month : Nat
  day : Nat
  hour : Nat
  minute : Nat
  second : Nat
  tzOffsetSeconds : Option Int
deriving DecidableEq

/-- The numeric value of an ASCII digit character. -/
def digitVal (c : Char) : Option Nat :=
  if c.isDigit then some (c.toNat - 48) else none

/-- Two ASCII digits read as a two-digit number. -/
def num2 (a b : Char) : Option Nat := do
  let x ← digitVal a
  let y ← digitVal b
  pure (10 * x + y)

/-- Four ASCII digits read as a four-digit number. -/
def num4 (a b c d : Char) : Option Nat := do
  let x ← num2 a b
  let y ← num2 c d
  pure (100 * x + y)

/-- The proleptic Gregorian month lengths used by Python's datetime. -/
def isLeapYear (y : Nat) : Bool :=
  (y % 4 == 0 && y % 100 != 0) || y % 400 == 0

/-- Days in a month of the proleptic Gregorian calendar. -/
def daysInMonth (y m : Nat) : Nat :=
  if m == 2 then (if isLeapYear y then 29 else 28)
  else if m == 4 || m == 6 || m == 9 || m == 11 then 30
  else 31

/-- The magnitude of a UTC offset HH:MM or HH:MM:SS, in seconds. -/
def parseOffsetMag : List Char → Option Nat
  | [h1, h2, ':', m1, m2] => do
    let hh ← num2 h1 h2
    let mm ← num2 m1 m2
    if hh ≤ 23 && mm ≤ 59 then pure (hh * 3600 + mm * 60) else none
  | [h1, h2, ':', m1, m2, ':', s1, s2] => do
    let hh ← num2 h1 h2
    let mm ← num2 m1 m2
    let ss ← num2 s1 s2
    if hh ≤ 23 && mm ≤ 59 && ss ≤ 59 then
      pure (hh * 3600 + mm * 60 + ss)
    else none
  | _ => none

/-- A signed UTC offset, in seconds. -/
def parseOffset : List Char → Option Int
  | '+' :: rest => do
    let m ← parseOffsetMag rest
    pure (Int.ofNat m)
  | '-' :: rest => do
    let m ← parseOffsetMag rest
    pure (-(Int.ofNat m))
  | _ => none

/-- The time-of-day part HH[:MM[:SS]] with an optional trailing UTC
offset, attached to an already-parsed calendar date. -/
def parseTime (y mo d : Nat) : List Char → Option PyDateTime
  | h1 :: h2 :: rest => do
    let hh ← num2 h1 h2
    if hh ≤ 23 then
      match rest with
      | [] => pure ⟨y, mo, d, hh, 0, 0, none⟩
      | ':' :: m1 :: m2 :: rest2 => do
        let mm ← num2 m1 m2
        if mm ≤ 59 then
          match rest2 with
          | [] => pure ⟨y, mo, d, hh, mm, 0, none⟩
          | ':' :: s1 :: s2 :: rest3 => do
            let ss ← num2 s1 s2
            if ss ≤ 59 then
              match rest3 with
              | [] => pure ⟨y, mo, d, hh, mm, ss, none⟩
              | off => do
                let o ← parseOffset off
                pure ⟨y, mo, d, hh, mm, ss, some o⟩
            else none
          | off => do
            let o ← parseOffset off
            pure ⟨y, mo, d, hh, mm, 0, some o⟩
        else none
      | off => do
        let o ← parseOffset off
        pure ⟨y, mo, d, hh, 0, 0, some o⟩
    else none
  | _ => none

/-- Model of Python's datetime.fromisoformat on the extended ISO format:
a YYYY-MM-DD date with validated calendar fields, optionally followed by
one separator character and a time-of-day with optional UTC offset. -/
def fromisoformat (s : String) : Option PyDateTime :=
  match s.toList with
  | y1 :: y2 :: y3 :: y4 :: '-' :: mo1 :: mo2 :: '-' :: d1 :: d2 :: rest => do
    let y ← num4 y1 y2 y3 y4
    let mo ← num2 mo1 mo2
    let d ← num2 d1 d2
    if 1 ≤ y && 1 ≤ mo && mo ≤ 12 && 1 ≤ d && d ≤ daysInMonth y mo then
      match rest with
      | [] => pure ⟨y, mo, d, 0, 0, 0, none⟩
      | _sep :: timeRest => parseTime y mo d timeRest
    else none
  | _ => none

/-- A Python argument as the validators receive it: the claims exercise
strings, None, and non-string scalars. -/
inductive PyObj where
  | ofStr (s : String)
  | pyNone
  | ofInt (n : Int)
  | ofBool (b : Bool)

/-- Python truthiness of an argument ("if not date_str:"). -/
def PyObj.truthy : PyObj → Bool
  | .ofStr s => s != ""
  | .pyNone => false
  | .ofInt n => n != 0
  | .ofBool b => b

/-- isinstance(obj, str). -/
def PyObj.isStr : PyObj → Bool
  | .ofStr _ => true
  | _ => false

/-- The underlying string of a string argument (only read after the
isinstance(str) check has passed, mirroring the Python control flow). -/
def PyObj.asStr : PyObj → String
  | .ofStr s => s
  | _ => ""

/-- validate_and_parse_date of tools/validators.py: reject falsy and
non-string arguments and strings shorter than 8 characters, then delegate
to fromisoformat, mapping any parse failure to None. -/
def validate_and_parse_date (date_str : PyObj) : Option PyDateTime :=
  if !date_str.truthy then none
  else if !date_str.isStr then none
  else
    let s := date_str.asStr
    if s.length < 8 then none
    else fromisoformat s

/-- validate_datetime of tools/validators.py: reject falsy and non-string
arguments, then parse datetime_str.replace("Z", "+00:00") with
fromisoformat, mapping any parse failure to None.  Note the replacement
applies to every occurrence of Z, not only a trailing one. -/
def validate_datetime (datetime_str : PyObj) : Option PyDateTime :=
  if !datetime_str.truthy then none
  else if !datetime_str.isStr then none
  else fromisoformat (pyReplace datetime_str.asStr "Z" "+00:00")

/-- Modelled from the spec (section 4.2), for comparison with the source:
replace only a TRAILING UTC designator Z with +00:00. -/
def replace_trailing_z (s : String) : String :=
  match s.toList.getLast? with
  | some 'Z' => String.mk (s.toList.dropLast ++ ['+', '0', '0', ':', '0', '0'])
  | _ => s

/-- Modelled from the spec (section 4.2), for comparison with the source:
parse_datetime as the spec words it, replacing only a trailing Z before
delegating to the same best-effort ISO parse. -/
def parse_datetime_spec (datetime_str : PyObj) : Option PyDateTime :=
  if !datetime_str.truthy then none
  else if !datetime_str.isStr then none
  else fromisoformat (replace_trailing_z datetime_str.asStr)

example : fromisoformat "2025-05-01" = some ⟨2025, 5, 1, 0, 0, 0, none⟩ := by decide
example : fromisoformat "2025-02-30" = none := by decide
example : validate_datetime (.ofStr "2025-05-01T01:00Z") = some ⟨2025, 5, 1, 1, 0, 0, some 0⟩ := by decide
example : validate_datetime (.ofStr "2025-05-01T01:00+00:00") = some ⟨2025, 5, 1, 1, 0, 0, some 0⟩ := by decide
example : validate_datetime (.ofStr "2025-05-01T01:00:00Z:00") = some ⟨2025, 5, 1, 1, 0, 0, some 0⟩ := by decide
example : parse_datetime_spec (.ofStr "2025-05-01T01:00:00Z:00") = none := by decide

/-! Schema-less telemetry formatter: format_device_state of
servers/vaillant.py, embedded compositionally.  Each definition mirrors
one block of the Python function; format_device_state concatenates them
in the source order. -/

/-- state_data.get(key): the first binding of the key, if any. -/
def lookup (record : Record) (k : String) : Option Value :=
  match record.find? (fun kv => kv.1 == k) with
  | some kv => some kv.2
  | none => none

/-- The serial-masking step: a string serial longer than 24 characters is
replaced by "V" followed by serial[24:]; anything else passes through. -/
def maskSerial : Value → Value
  | .str s => if s.length > 24 then .str ("V" ++ String.mk (s.toList.drop 24)) else .str s
  | v => v

/-- The report header "## Device: {masked_serial} ({device_type})", with
serialNumber defaulting to "Device {index + 1}" and type to "Unknown". -/
def headerOf (record : Record) (index : Nat) : String :=
  let serial := (lookup record "serialNumber").getD (.str ("Device " ++ toString (index + 1)))
  let dtype := (lookup record "type").getD (.str "Unknown")
  "## Device: " ++ (maskSerial serial).pyStr ++ " (" ++ dtype.pyStr ++ ")\n\n"

/-- The temperature-collection test: "temperature" occurs in the
lowercased key, the key is not serialNumber, and the value passes
isinstance((int, float)) — which in Python also accepts booleans. -/
def tempPred (k : String) (v : Value) : Bool :=
  strContainsSub (py_lower k) "temperature" && k != "serialNumber" && v.isPyNumber

/-- The entries collected into the temperatures list, in record order. -/
def tempEntries (record : Record) : Record :=
  record.filter fun kv => tempPred kv.1 kv.2

/-- The readable name used in the Temperatures section: first replace
"Temperature" by " Temperature", then insert a space before every
uppercase letter, strip, and capitalize. -/
def tempReadableName (name : String) : String :=
  pyCapitalize (py_strip (spaceBeforeUppers (pyReplace name "Temperature" " Temperature")))

/-- One bullet line of the Temperatures section. -/
def tempLine (kv : String × Value) : String :=
  "- " ++ tempReadableName kv.1 ++ ": " ++ kv.2.pyStr ++ "°C\n"

/-- The Temperatures section, empty when no key qualifies. -/
def tempSection (record : Record) : String :=
  let temperatures := tempEntries record
  if temperatures.isEmpty then ""
  else "### Temperatures\n\n" ++ String.join (temperatures.map tempLine) ++ "\n"

/-- The status-collection test: a boolean value under a key other than
serialNumber. -/
def statusPred (k : String) (v : Value) : Bool :=
  v.isBool && k != "serialNumber"

/-- The entries collected into the statuses list, in record order. -/
def statusEntries (record : Record) : Record :=
  record.filter fun kv => statusPred kv.1 kv.2

/-- The readable name used outside the Temperatures section: insert a
space before every uppercase letter, strip, and capitalize. -/
def readableName (name : String) : String :=
  pyCapitalize (py_strip (spaceBeforeUppers name))

/-- One bullet line of the Status Indicators section; Python renders
"Active" for a truthy value. -/
def statusLine (kv : String × Value) : String :=
  "- " ++ readableName kv.1 ++ ": " ++ (if kv.2.pyTruthy then "Active" else "Inactive") ++ "\n"

/-- The Status Indicators section, empty when no key qualifies. -/
def statusSection (record : Record) : String :=
  let statuses := statusEntries record
  if statuses.isEmpty then ""
  else "### Status Indicators\n\n" ++ String.join (statuses.map statusLine) ++ "\n"

/-- One bullet line of a level-two sub-section (inside a nested dict of a
nested dict): readable name and raw str() of the value, no unit
inference. -/
def subSubLine (kv : String × Value) : String :=
  "- " ++ readableName kv.1 ++ ": " ++ kv.2.pyStr ++ "\n"

/-- One leaf line of a nested section, with unit inference by substring
match on the key: temperature with a Python-numeric value gets a °C
suffix, pressure with a Python-numeric value gets " bar", an otherwise
boolean value renders Active/Inactive, anything else renders raw. -/
def nestedLeafLine (kv : String × Value) : String :=
  let rn := readableName kv.1
  if strContainsSub (py_lower kv.1) "temperature" && kv.2.isPyNumber then
    "- " ++ rn ++ ": " ++ kv.2.pyStr ++ "°C\n"
  else if strContainsSub (py_lower kv.1) "pressure" && kv.2.isPyNumber then
    "- " ++ rn ++ ": " ++ kv.2.pyStr ++ " bar\n"
  else if kv.2.isBool then
    "- " ++ rn ++ ": " ++ (if kv.2.pyTruthy then "Active" else "Inactive") ++ "\n"
  else
    "- " ++ rn ++ ": " ++ kv.2.pyStr ++ "\n"

/-- One entry of a nested section: a dict value becomes a "####"-titled
sub-section whose lines carry no unit inference; any other value becomes
a leaf line with unit inference. -/
def subItem (kv : String × Value) : String :=
  match kv.2 with
  | .dict es2 => "#### " ++ pyCapitalize kv.1 ++ "\n\n" ++ String.join (es2.map subSubLine)
  | _ => nestedLeafLine kv

/-- The nested-section test: a dict value under a key other than
_metadata. -/
def nestedPred (k : String) (v : Value) : Bool :=
  v.isDict && k != "_metadata"

/-- The top-level entries rendered as nested sections, in record order. -/
def nestedEntries (record : Record) : Record :=
  record.filter fun kv => nestedPred kv.1 kv.2

/-- One "###"-titled nested section for a dict-valued top-level key. -/
def nestedSection (kv : String × Value) : String :=
  match kv.2 with
  | .dict es => "### " ++ pyCapitalize kv.1 ++ "\n\n" ++ String.join (es.map subItem) ++ "\n"
  | _ => ""

/-- All nested sections of the record, in record order. -/
def nestedSections (record : Record) : String :=
  String.join ((nestedEntries record).map nestedSection)

/-- format_device_state of servers/vaillant.py: header, temperatures,
status indicators, then the nested sections. -/
def format_device_state (record : Record) (index : Nat) : String :=
  headerOf record index ++ tempSection record ++ statusSection record ++ nestedSections record

example : format_device_state [] 0 = "## Device: Device 1 (Unknown)\n\n" := by decide
example : format_device_state [("temperatureAlarm", .bool true)] 0 =
    "## Device: Device 1 (Unknown)\n\n" ++
    "### Temperatures\n\n- Temperature alarm: True°C\n\n" ++
    "### Status Indicators\n\n- Temperature alarm: Active\n\n" := by decide
example : format_device_state [("roomTemperatureTarget", .num 21)] 0 =
    "## Device: Device 1 (Unknown)\n\n" ++
    "### Temperatures\n\n- Room  temperature target: 21°C\n\n" := by decide
example : format_device_state [("boiler", .dict [("waterTemperatureNote", .str "high")])] 0 =
    "## Device: Device 1 (Unknown)\n\n" ++
    "### Boiler\n\n- Water temperature note: high\n\n" := by decide
example : format_device_state [("_metadata", .bool true)] 0 =
    "## Device: Device 1 (Unknown)\n\n" ++
    "### Status Indicators\n\n- _metadata: Active\n\n" := by decide
example : format_device_state [("serialNumber", .str "ABCDEFGHIJKLMNOPQRSTUVWX456789")] 0 =
    "## Device: V456789 (Unknown)\n\n" := by decide

/-! Counting helpers for the exactly-once invariants. -/

/-- The number of positions at which the pattern occurs in the list. -/
def countSubL (pat : List Char) : List Char → Nat
  | [] => 0
  | c :: cs => (if startsWithL pat (c :: cs) then 1 else 0) + countSubL pat cs

/-- The number of positions at which the pattern occurs in the string. -/
def countSub (s pat : String) : Nat :=
  countSubL pat.toList s.toList

/-- In a record that does not bind a key at all, no filtered entry
carries that key. -/
theorem countP_key_zero (p : String × Value → Bool) (k : String) :
    ∀ r : Record, k ∉ r.map Prod.fst →
      (r.filter p).countP (fun kv => kv.1 == k) = 0 := by
  intro r
  induction r with
  | nil => intro _; rfl
  | cons hd t ih =>
    intro hk
    rw [List.map_cons, List.mem_cons] at hk
    push_neg at hk
    have hk1 : (hd.1 == k) = false := by
      simp only [beq_eq_false_iff_ne]
      exact fun e => hk.1 e.symm
    cases hp : p hd <;>
      simp [List.filter_cons, hp, List.countP_cons, hk1, ih hk.2]

/-- In a record with pairwise-distinct keys, the entries of a filtered
sublist carrying a given bound key number exactly one when the binding
satisfies the filter, and zero otherwise. -/
theorem countP_key_filter (p : String × Value → Bool) (k : String) (v : Value) :
    ∀ r : Record, (r.map Prod.fst).Nodup → (k, v) ∈ r →
      (r.filter p).countP (fun kv => kv.1 == k) = if p (k, v) then 1 else 0 := by
  intro r
  induction r with
  | nil => intro _ hm; exact absurd hm (List.not_mem_nil _)
  | cons hd t ih =>
    intro hnd hm
    rw [List.map_cons, List.nodup_cons] at hnd
    rcases List.mem_cons.mp hm with heq | hmem
    · subst heq
      have h0 : (t.filter p).countP (fun kv => kv.1 == k) = 0 :=
        countP_key_zero p k t hnd.1
      cases hp : p (k, v) <;>
        simp [List.filter_cons, hp, List.countP_cons, h0]
    · have hkey : k ∈ t.map Prod.fst := List.mem_map_of_mem Prod.fst hmem
      have hk1 : (hd.1 == k) = false := by
        simp only [beq_eq_false_iff_ne]
        exact fun e => hnd.1 (e ▸ hkey)
      cases hp : p hd <;>
        simp [List.filter_cons, hp, List.countP_cons, hk1, ih hnd.2 hmem]

/-! Claim C1. -/

/-- C1 (amended): in a record with pairwise-distinct keys, every key other
than serialNumber holding a strictly numeric value and containing
"temperature" in its name is rendered exactly once in the temperatures
list and never in the statuses list; every key other than serialNumber
holding a boolean value is rendered exactly once in the statuses list, and
when its name also contains "temperature" it is rendered once more in the
temperatures list (Python's isinstance((int, float)) accepts booleans), so
such a key appears in two places; both lists preserve the record's
insertion order (they are sublists of the record). -/
theorem format_record_keys_exactly_once
    (r : Record) (k : String) (v : Value)
    (hnd : (r.map Prod.fst).Nodup) (hm : (k, v) ∈ r) :
    (v.isNum = true → k ≠ "serialNumber" →
      strContainsSub (py_lower k) "temperature" = true →
      (tempEntries r).countP (fun kv => kv.1 == k) = 1 ∧
      (statusEntries r).countP (fun kv => kv.1 == k) = 0) ∧
    (v.isBool = true → k ≠ "serialNumber" →
      (statusEntries r).countP (fun kv => kv.1 == k) = 1 ∧
      (strContainsSub (py_lower k) "temperature" = true →
        (tempEntries r).countP (fun kv => kv.1 == k) = 1)) ∧
    List.Sublist (tempEntries r) r ∧ List.Sublist (statusEntries r) r := by
  refine ⟨?_, ?_, List.filter_sublist r, List.filter_sublist r⟩
  · intro h1 h2 h3
    have hb : (k != "serialNumber") = true := by
      simp only [bne_iff_ne, ne_eq]
      exact h2
    have hn : v.isPyNumber = true := by
      cases v <;> simp_all [Value.isNum, Value.isPyNumber]
    have hnb : v.isBool = false := by
      cases v <;> simp_all [Value.isNum, Value.isBool]
    constructor
    · unfold tempEntries
      rw [countP_key_filter _ k v r hnd hm]
      simp [tempPred, h3, hb, hn]
    · unfold statusEntries
      rw [countP_key_filter _ k v r hnd hm]
      simp [statusPred, hnb]
  · intro h1 h2
    have hb : (k != "serialNumber") = true := by
      simp only [bne_iff_ne, ne_eq]
      exact h2
    have hn : v.isPyNumber = true := by
      cases v <;> simp_all [Value.isBool, Value.isPyNumber]
    constructor
    · unfold statusEntries
      rw [countP_key_filter _ k v r hnd hm]
      simp [statusPred, h1, hb]
    · intro h3
      unfold tempEntries
      rw [countP_key_filter _ k v r hnd hm]
      simp [tempPred, h3, hb, hn]

/-- C1 counterexample: the boolean key temperatureAlarm passes both the
temperature-collection test (isinstance((int, float)) accepts a bool) and
the status-collection test, so its entry is rendered under Temperatures
AND under Status Indicators: it appears in two places in the report,
refuting that every classified key appears exactly once. -/
theorem format_record_bool_temperature_twice :
    tempPred "temperatureAlarm" (.bool true) = true ∧
    statusPred "temperatureAlarm" (.bool true) = true ∧
    format_device_state [("temperatureAlarm", .bool true)] 0 =
      "## Device: Device 1 (Unknown)\n\n### Temperatures\n\n- Temperature alarm: True°C\n\n### Status Indicators\n\n- Temperature alarm: Active\n\n" ∧
    countSub (format_device_state [("temperatureAlarm", .bool true)] 0)
      "- Temperature alarm: " = 2 :=
  ⟨by decide, by decide, by decide, by decide⟩

/-- Witness for C1's amended theorem at a concrete two-key record. -/
theorem format_record_keys_exactly_once_witness :
    (tempEntries [("outdoorTemperature", Value.num 7), ("compressorActive", Value.bool true)]).countP
        (fun kv => kv.1 == "outdoorTemperature") = 1 ∧
    (statusEntries [("outdoorTemperature", Value.num 7), ("compressorActive", Value.bool true)]).countP
        (fun kv => kv.1 == "compressorActive") = 1 := by
  constructor
  · exact ((format_record_keys_exactly_once
      [("outdoorTemperature", Value.num 7), ("compressorActive", Value.bool true)]
      "outdoorTemperature" (Value.num 7) (by decide)
      (List.mem_cons_self _ _)).1 (by decide) (by decide) (by decide)).1
  · exact ((format_record_keys_exactly_once
      [("outdoorTemperature", Value.num 7), ("compressorActive", Value.bool true)]
      "compressorActive" (Value.bool true) (by decide)
      (List.mem_cons_of_mem _ (List.mem_cons_self _ _))).2.1 (by decide) (by decide)).1

/-! Claim C2. -/

/-- C2: validate_and_parse_postcode implements the spec's algorithm —
strip all whitespace and uppercase, return the outward portion on a
full-postcode match, return the whole string on an outward-only match,
otherwise Invalid — and satisfies the spec's listed examples. -/
theorem normalize_postcode_correct :
    (∀ s, validate_and_parse_postcode s = normalize_postcode_spec s) ∧
    validate_and_parse_postcode "SW1A 1AA" = some "SW1A" ∧
    validate_and_parse_postcode "SW1A1AA" = some "SW1A" ∧
    validate_and_parse_postcode "sw1a" = some "SW1A" ∧
    validate_and_parse_postcode "123" = none ∧
    validate_and_parse_postcode "" = none := by
  refine ⟨fun s => ?_, by decide, by decide, by decide, by decide, by decide⟩
  unfold validate_and_parse_postcode normalize_postcode_spec
  simp only [spec_outward_eq_outward]

/-! Claim C3. -/

/-- Replacing a pattern that does not occur in the list leaves it
unchanged. -/
theorem replaceAllAux_no_occurrence (pat repl : List Char) :
    ∀ (fuel : Nat) (l : List Char), hasSubL pat l = false →
      replaceAllAux pat repl fuel l = l := by
  intro fuel
  induction fuel with
  | zero => intro l _; cases l <;> rfl
  | succ n ih =>
    intro l h
    cases l with
    | nil => rfl
    | cons c cs =>
      rw [hasSubL, Bool.or_eq_false_iff] at h
      simp [replaceAllAux, h.1, ih cs h.2]

/-- str.replace with a pattern that does not occur is the identity. -/
theorem pyReplace_no_occurrence (s pat repl : String)
    (h : strContainsSub s pat = false) : pyReplace s pat repl = s := by
  unfold pyReplace
  by_cases hp : pat.isEmpty
  · simp [hp]
  · rw [if_neg hp, replaceAllAux_no_occurrence pat.toList repl.toList _ s.toList h]
    rfl

/-- C3 (amended): for keys not containing the literal substring
"Temperature" the Temperatures-section conversion agrees with the
space-insert-then-capitalize conversion used in every other bullet line;
for keys that do contain it, the Temperatures section first replaces
"Temperature" with " Temperature" and so renders a double space
(roomTemperatureTarget becomes "Room  temperature target" there, while
the other sections render "Room temperature target"); nested section
titles use bare capitalization without space insertion. -/
theorem readable_name_conversion (k : String)
    (h : strContainsSub k "Temperature" = false) :
    tempReadableName k = readableName k ∧
    readableName "roomTemperatureTarget" = "Room temperature target" ∧
    tempReadableName "roomTemperatureTarget" = "Room  temperature target" ∧
    pyCapitalize "circuitSettings" = "Circuitsettings" := by
  refine ⟨?_, by decide, by decide, by decide⟩
  unfold tempReadableName readableName
  rw [pyReplace_no_occurrence _ _ _ h]

/-- C3 counterexample: the numeric key roomTemperatureTarget is rendered
in the Temperatures section as "Room  temperature target" — two spaces,
an artifact of the extra replace("Temperature", " Temperature") step —
and the single-space form the claim requires appears nowhere in the
report. -/
theorem readable_name_double_space :
    format_device_state [("roomTemperatureTarget", .num 21)] 0 =
      "## Device: Device 1 (Unknown)\n\n### Temperatures\n\n- Room  temperature target: 21°C\n\n" ∧
    tempReadableName "roomTemperatureTarget" ≠ "Room temperature target" ∧
    strContainsSub (format_device_state [("roomTemperatureTarget", .num 21)] 0)
      "Room temperature target" = false :=
  ⟨by decide, by decide, by decide⟩

/-- Witness for C3's amended theorem at the key compressorActive. -/
theorem readable_name_conversion_witness :
    tempReadableName "compressorActive" = readableName "compressorActive" ∧
    readableName "roomTemperatureTarget" = "Room temperature target" :=
  ⟨(readable_name_conversion "compressorActive" (by decide)).1,
   (readable_name_conversion "compressorActive" (by decide)).2.1⟩

/-! Claim C4. -/

/-- C4 (amended): within a nested section, a leaf whose key contains
"temperature" and whose value passes Python's numeric test (which accepts
booleans) gets the °C suffix; failing that, a key containing "pressure"
with a Python-numeric value gets " bar"; failing both, a boolean renders
Active/Inactive; a string value always renders raw and unsuffixed; a
nested dict value becomes a "####"-titled sub-section one level deeper
whose leaf lines carry the readable name and the raw value with no unit
inference. -/
theorem nested_leaf_unit_inference (k : String) (v : Value) (s : String) :
    (strContainsSub (py_lower k) "temperature" = true → v.isPyNumber = true →
      nestedLeafLine (k, v) = "- " ++ readableName k ++ ": " ++ v.pyStr ++ "°C\n") ∧
    (strContainsSub (py_lower k) "temperature" = false →
      strContainsSub (py_lower k) "pressure" = true → v.isPyNumber = true →
      nestedLeafLine (k, v) = "- " ++ readableName k ++ ": " ++ v.pyStr ++ " bar\n") ∧
    (strContainsSub (py_lower k) "temperature" = false →
      strContainsSub (py_lower k) "pressure" = false → v.isBool = true →
      nestedLeafLine (k, v) =
        "- " ++ readableName k ++ ": " ++ (if v.pyTruthy then "Active" else "Inactive") ++ "\n") ∧
    (nestedLeafLine (k, .str s) = "- " ++ readableName k ++ ": " ++ s ++ "\n") ∧
    (∀ es, subItem (k, .dict es) =
      "#### " ++ pyCapitalize k ++ "\n\n" ++ String.join (es.map subSubLine)) ∧
    (∀ k2 v2, subSubLine (k2, v2) = "- " ++ readableName k2 ++ ": " ++ v2.pyStr ++ "\n") := by
  refine ⟨?_, ?_, ?_, ?_, fun es => rfl, fun k2 v2 => rfl⟩
  · intro h1 h2
    simp [nestedLeafLine, h1, h2]
  · intro h1 h2 h3
    simp [nestedLeafLine, h1, h2, h3]
  · intro h1 h2 h3
    have hn : v.isPyNumber = true := by
      cases v <;> simp_all [Value.isBool, Value.isPyNumber]
    simp [nestedLeafLine, h1, h2, h3, hn]
  · simp [nestedLeafLine, Value.isPyNumber, Value.isBool, Value.pyStr]

/-- C4 counterexample: a string-valued nested key containing
"temperature" is rendered raw with no °C suffix, and a boolean-valued
nested key containing "temperature" is rendered "True°C" rather than
Active/Inactive, refuting the claim's unconditional suffix and boolean
rules. -/
theorem nested_leaf_not_per_claim :
    nestedLeafLine ("waterTemperatureNote", .str "high") =
      "- Water temperature note: high\n" ∧
    strContainsSub "- Water temperature note: high\n" "°C" = false ∧
    nestedLeafLine ("temperatureOk", .bool true) = "- Temperature ok: True°C\n" ∧
    format_device_state [("boiler", .dict [("waterTemperatureNote", .str "high")])] 0 =
      "## Device: Device 1 (Unknown)\n\n### Boiler\n\n- Water temperature note: high\n\n" :=
  ⟨by decide, by decide, by decide, by decide⟩

/-- Witness for C4's amended theorem at concrete nested leaves. -/
theorem nested_leaf_unit_inference_witness :
    nestedLeafLine ("flowTemperature", .num 42) = "- Flow temperature: 42°C\n" ∧
    nestedLeafLine ("waterPressure", .num 2) = "- Water pressure: 2 bar\n" ∧
    nestedLeafLine ("pumpRunning", .bool true) = "- Pump running: Active\n" := by
  refine ⟨?_, ?_, ?_⟩
  · exact ((nested_leaf_unit_inference "flowTemperature" (.num 42) "").1
      (by decide) (by decide)).trans (by decide)
  · exact ((nested_leaf_unit_inference "waterPressure" (.num 2) "").2.1
      (by decide) (by decide) (by decide)).trans (by decide)
  · exact ((nested_leaf_unit_inference "pumpRunning" (.bool true) "").2.2.1
      (by decide) (by decide) (by decide)).trans (by decide)

/-! Claim C5. -/

/-- C5 (amended): serialNumber is excluded from the temperature and
boolean classification rules (and its name can never satisfy the
temperature name test), and _metadata is excluded only from the
nested-mapping rule (its name never satisfies the temperature name test
either); but a boolean-valued _metadata key does satisfy the boolean
status rule and a mapping-valued serialNumber key does satisfy the
nested-mapping rule. -/
theorem excluded_keys_classification :
    (∀ v, tempPred "serialNumber" v = false) ∧
    (∀ v, statusPred "serialNumber" v = false) ∧
    (∀ v, tempPred "_metadata" v = false) ∧
    (∀ v, nestedPred "_metadata" v = false) ∧
    (∀ b, statusPred "_metadata" (.bool b) = true) ∧
    (∀ es, nestedPred "serialNumber" (.dict es) = true) := by
  refine ⟨?_, ?_, ?_, ?_, ?_, ?_⟩
  · intro v
    have h : strContainsSub (py_lower "serialNumber") "temperature" = false := by decide
    simp [tempPred, h]
  · intro v
    simp [statusPred]
  · intro v
    have h : strContainsSub (py_lower "_metadata") "temperature" = false := by decide
    simp [tempPred, h]
  · intro v
    simp [nestedPred]
  · intro b
    simp [statusPred, Value.isBool]
  · intro es
    simp [nestedPred, Value.isDict]

/-- C5 counterexample: a boolean-valued _metadata key is rendered by the
boolean status rule (the code excludes _metadata only from the
nested-mapping rule), refuting that _metadata is never rendered by any of
the three classification rules. -/
theorem metadata_rendered_as_status :
    statusPred "_metadata" (.bool true) = true ∧
    nestedPred "serialNumber" (.dict []) = true ∧
    format_device_state [("_metadata", .bool true)] 0 =
      "## Device: Device 1 (Unknown)\n\n### Status Indicators\n\n- _metadata: Active\n\n" :=
  ⟨by decide, by decide, by decide⟩

/-! Claim C6. -/

/-- A string of length zero is the empty string. -/
theorem str_length_zero_iff (s : String) : s.length = 0 ↔ s = "" := by
  constructor
  · intro h
    cases s with
    | mk data =>
      have hl : data.length = 0 := h
      have hd : data = [] := List.length_eq_zero.mp hl
      rw [hd]
  · intro h
    rw [h]
    rfl

/-- C6: when serialNumber is bound to a string strictly longer than 24
characters, the header renders the masking marker "V" followed by exactly
the characters after the first 24 — a suffix of length (length - 24), so
the serial is never shown in full — and the report is that header
followed by the classified sections. -/
theorem serial_masking
    (r : Record) (i : Nat) (s : String)
    (h1 : lookup r "serialNumber" = some (.str s)) (h2 : 24 < s.length) :
    headerOf r i =
      "## Device: V" ++ String.mk (s.toList.drop 24) ++ " (" ++
        ((lookup r "type").getD (.str "Unknown")).pyStr ++ ")\n\n" ∧
    (String.mk (s.toList.drop 24)).length = s.length - 24 ∧
    format_device_state r i =
      headerOf r i ++ tempSection r ++ statusSection r ++ nestedSections r := by
  have key : ∀ rest : String, "## Device: " ++ ("V" ++ rest) = "## Device: V" ++ rest := by
    intro rest
    rw [← String.append_assoc, show ("## Device: " ++ "V" : String) = "## Device: V" from by decide]
  refine ⟨?_, ?_, rfl⟩
  · unfold headerOf maskSerial
    rw [h1]
    simp only [Option.getD_some]
    rw [if_pos h2]
    simp only [Value.pyStr]
    simp only [String.append_assoc]
    exact key _
  · show (s.toList.drop 24).length = s.length - 24
    rw [List.length_drop]
    rfl

/-- Witness for C6 at a literal 30-character serial fixture. -/
theorem serial_masking_witness :
    headerOf [("serialNumber", .str "ABCDEFGHIJKLMNOPQRSTUVWX456789")] 0 =
      "## Device: V456789 (Unknown)\n\n" ∧
    format_device_state [("serialNumber", .str "ABCDEFGHIJKLMNOPQRSTUVWX456789")] 0 =
      "## Device: V456789 (Unknown)\n\n" ∧
    strContainsSub
      (format_device_state [("serialNumber", .str "ABCDEFGHIJKLMNOPQRSTUVWX456789")] 0)
      "ABCDEFGHIJKLMNOPQRSTUVWX456789" = false ∧
    ("ABCDEFGHIJKLMNOPQRSTUVWX456789" : String).length = 30 := by
  refine ⟨?_, by decide, by decide, by decide⟩
  exact ((serial_masking [("serialNumber", Value.str "ABCDEFGHIJKLMNOPQRSTUVWX456789")] 0
    "ABCDEFGHIJKLMNOPQRSTUVWX456789" rfl (by decide)).1).trans (by decide)

/-! Claim C9. -/

/-- An append whose left part is non-empty is non-empty. -/
theorem str_append_ne_empty_left (a b : String) (h : a ≠ "") : a ++ b ≠ "" := by
  intro e
  apply h
  have h1 := congrArg String.length e
  rw [String.length_append] at h1
  have h2 : a.length = 0 := by
    have h0 : ("" : String).length = 0 := rfl
    omega
  exact (str_length_zero_iff a).mp h2

/-- C9: format_record is total over the embedded records by construction;
on the empty record it returns exactly the header — a non-empty string
containing no Temperatures and no Status Indicators section — and on
every record the report is non-empty. -/
theorem format_record_total (r : Record) (i : Nat) :
    format_device_state [] 0 = "## Device: Device 1 (Unknown)\n\n" ∧
    format_device_state [] 0 ≠ "" ∧
    strContainsSub (format_device_state [] 0) "### Temperatures" = false ∧
    strContainsSub (format_device_state [] 0) "### Status Indicators" = false ∧
    format_device_state r i ≠ "" := by
  refine ⟨by decide, by decide, by decide, by decide, ?_⟩
  simp only [format_device_state, headerOf]
  apply str_append_ne_empty_left
  apply str_append_ne_empty_left
  apply str_append_ne_empty_left
  apply str_append_ne_empty_left
  apply str_append_ne_empty_left
  apply str_append_ne_empty_left
  apply str_append_ne_empty_left
  decide

/-! Claim C10. -/

/-- C10 (amended): the absent-serial default label "Device {index+1}" is
itself fed through the masking step, so it appears verbatim in the header
whenever it is at most 24 characters long (index+1 having at most 17
digits); a present string serial of at most 24 characters and a
non-string serial are rendered verbatim and unmasked, and a missing type
key renders "Unknown" — masking applies only to strings strictly longer
than 24 characters. -/
theorem header_defaults_and_unmasked
    (r : Record) (i : Nat) (s : String) (n : Int) (v : Value) :
    ((toString (i + 1)).length ≤ 17 →
      lookup r "serialNumber" = none → lookup r "type" = none →
      headerOf r i = "## Device: Device " ++ toString (i + 1) ++ " (Unknown)\n\n") ∧
    (lookup r "serialNumber" = some (.str s) → s.length ≤ 24 →
      lookup r "type" = none →
      headerOf r i = "## Device: " ++ s ++ " (Unknown)\n\n") ∧
    (lookup r "serialNumber" = some (.num n) → lookup r "type" = none →
      headerOf r i = "## Device: " ++ toString n ++ " (Unknown)\n\n") ∧
    (s.length ≤ 24 → maskSerial (.str s) = .str s) ∧
    (v.isStr = false → maskSerial v = v) := by
  refine ⟨?_, ?_, ?_, ?_, ?_⟩
  · intro hlen h1 h2
    have hd : ("Device " ++ toString (i + 1)).length ≤ 24 := by
      rw [String.length_append]
      have h7 : ("Device " : String).length = 7 := rfl
      omega
    unfold headerOf maskSerial
    rw [h1, h2]
    simp only [Option.getD_none, Value.pyStr]
    rw [if_neg (by omega)]
    simp only [Value.pyStr]
    have key : ∀ rest : String,
        "## Device: " ++ ("Device " ++ rest) = "## Device: Device " ++ rest := by
      intro rest
      rw [← String.append_assoc,
          show ("## Device: " ++ "Device " : String) = "## Device: Device " from by decide]
    simp only [String.append_assoc]
    exact key _
  · intro h1 h2 h3
    unfold headerOf maskSerial
    rw [h1, h3]
    simp only [Option.getD_some, Option.getD_none, Value.pyStr]
    rw [if_neg (by omega)]
    simp only [Value.pyStr]
    rw [show (" (Unknown)\n\n" : String) = " (" ++ "Unknown" ++ ")\n\n" from by decide]
    simp [String.append_assoc]
  · intro h1 h2
    unfold headerOf maskSerial
    rw [h1, h2]
    simp only [Option.getD_some, Option.getD_none, Value.pyStr]
    rw [show (" (Unknown)\n\n" : String) = " (" ++ "Unknown" ++ ")\n\n" from by decide]
    simp [String.append_assoc]
  · intro h
    show (if s.length > 24 then Value.str ("V" ++ String.mk (s.toList.drop 24))
          else Value.str s) = Value.str s
    rw [if_neg]
    omega
  · intro h
    cases v <;> simp_all [Value.isStr, maskSerial]

/-- C10 counterexample: for an index whose default label exceeds 24
characters the code masks the label itself — at index 10^17 the header
reads "## Device: V1 (Unknown)" instead of identifying the device as
"Device 100000000000000001". -/
theorem header_default_label_masked :
    headerOf [] (10 ^ 17) = "## Device: V1 (Unknown)\n\n" ∧
    headerOf [] (10 ^ 17) ≠
      "## Device: Device 100000000000000001 (Unknown)\n\n" :=
  ⟨by decide, by decide⟩

/-- Witness for C10's amended theorem at concrete headers. -/
theorem header_defaults_and_unmasked_witness :
    headerOf [] 0 = "## Device: Device 1 (Unknown)\n\n" ∧
    headerOf [("serialNumber", Value.str "SN24CHARACTERSEXACTLY001")] 0 =
      "## Device: SN24CHARACTERSEXACTLY001 (Unknown)\n\n" ∧
    headerOf [("serialNumber", Value.num 7)] 0 = "## Device: 7 (Unknown)\n\n" := by
  refine ⟨?_, ?_, ?_⟩
  · exact ((header_defaults_and_unmasked [] 0 "" 0 (Value.num 0)).1
      (by decide) rfl rfl).trans (by decide)
  · exact ((header_defaults_and_unmasked
      [("serialNumber", Value.str "SN24CHARACTERSEXACTLY001")] 0
      "SN24CHARACTERSEXACTLY001" 0 (Value.num 0)).2.1
      rfl (by decide) rfl).trans (by decide)
  · exact ((header_defaults_and_unmasked
      [("serialNumber", Value.num 7)] 0 "" 7 (Value.num 0)).2.2.1
      rfl rfl).trans (by decide)

/-! Claim C7. -/

/-- C7 (amended): parse_datetime rejects non-strings and empty strings,
and before parsing replaces EVERY occurrence of "Z" in the input (not
only a trailing one) with "+00:00"; in particular a trailing Zulu
designator and an explicit +00:00 offset parse to the same instant. -/
theorem parse_datetime_z_replacement (n : Int) (b : Bool) (s : String)
    (hs : s ≠ "") :
    validate_datetime (.ofInt n) = none ∧
    validate_datetime (.ofBool b) = none ∧
    validate_datetime .pyNone = none ∧
    validate_datetime (.ofStr "") = none ∧
    validate_datetime (.ofStr s) = fromisoformat (pyReplace s "Z" "+00:00") ∧
    validate_datetime (.ofStr "2025-05-01T01:00Z") =
      some ⟨2025, 5, 1, 1, 0, 0, some 0⟩ ∧
    validate_datetime (.ofStr "2025-05-01T01:00+00:00") =
      some ⟨2025, 5, 1, 1, 0, 0, some 0⟩ := by
  refine ⟨?_, ?_, by decide, by decide, ?_, by decide, by decide⟩
  · cases h : (n != 0) <;>
      simp [validate_datetime, PyObj.truthy, PyObj.isStr, h]
  · cases b <;> decide
  · have ht : (s != "") = true := by
      simp only [bne_iff_ne, ne_eq]
      exact hs
    simp [validate_datetime, PyObj.truthy, PyObj.isStr, PyObj.asStr, ht]

/-- C7 counterexample: the code's replace acts on every "Z", so the
malformed input "2025-05-01T01:00:00Z:00" — whose "Z" is not trailing —
is rewritten to the valid offset "+00:00:00" and accepted, while the
claimed trailing-only replacement leaves it unparseable. -/
theorem parse_datetime_mid_z_accepted :
    validate_datetime (.ofStr "2025-05-01T01:00:00Z:00") =
      some ⟨2025, 5, 1, 1, 0, 0, some 0⟩ ∧
    parse_datetime_spec (.ofStr "2025-05-01T01:00:00Z:00") = none ∧
    replace_trailing_z "2025-05-01T01:00:00Z:00" = "2025-05-01T01:00:00Z:00" :=
  ⟨by decide, by decide, by decide⟩

/-- Witness for C7's amended theorem at a Zulu-suffixed timestamp. -/
theorem parse_datetime_z_replacement_witness :
    validate_datetime (.ofStr "2025-05-01T01:00Z") =
      fromisoformat (pyReplace "2025-05-01T01:00Z" "Z" "+00:00") ∧
    validate_datetime (.ofStr "2025-05-01T01:00Z") =
      validate_datetime (.ofStr "2025-05-01T01:00+00:00") := by
  constructor
  · exact (parse_datetime_z_replacement 0 true "2025-05-01T01:00Z"
      (by decide)).2.2.2.2.1
  · exact ((parse_datetime_z_replacement 0 true "2025-05-01T01:00Z"
      (by decide)).2.2.2.2.2.1).trans
      ((parse_datetime_z_replacement 0 true "x" (by decide)).2.2.2.2.2.2).symm

/-! Claim C8. -/

/-- C8: parse_date returns Invalid (never raising, by totality of the
embedding) for non-string input, for every string shorter than 8
characters, and for every string the ISO parse rejects — including
calendar-invalid dates — and returns the parsed instant on well-formed
input of length at least 8. -/
theorem parse_date_correct (n : Int) (b : Bool) (s : String) (d : PyDateTime) :
    validate_and_parse_date .pyNone = none ∧
    validate_and_parse_date (.ofInt n) = none ∧
    validate_and_parse_date (.ofBool b) = none ∧
    (s.length < 8 → validate_and_parse_date (.ofStr s) = none) ∧
    (fromisoformat s = none → validate_and_parse_date (.ofStr s) = none) ∧
    (8 ≤ s.length → fromisoformat s = some d →
      validate_and_parse_date (.ofStr s) = some d) ∧
    validate_and_parse_date (.ofStr "2025-05-01") =
      some ⟨2025, 5, 1, 0, 0, 0, none⟩ ∧
    validate_and_parse_date (.ofStr "2025") = none ∧
    validate_and_parse_date (.ofStr "2025-02-30") = none := by
  refine ⟨by decide, ?_, ?_, ?_, ?_, ?_, by decide, by decide, by decide⟩
  · cases h : (n != 0) <;>
      simp [validate_and_parse_date, PyObj.truthy, PyObj.isStr, h]
  · cases b <;> decide
  · intro h
    by_cases hs : s = ""
    · subst hs
      decide
    · have ht : (s != "") = true := by
        simp only [bne_iff_ne, ne_eq]
        exact hs
      simp [validate_and_parse_date, PyObj.truthy, PyObj.isStr, PyObj.asStr, ht, h]
  · intro h
    by_cases hs : s = ""
    · subst hs
      decide
    · have ht : (s != "") = true := by
        simp only [bne_iff_ne, ne_eq]
        exact hs
      by_cases hl : s.length < 8 <;>
        simp [validate_and_parse_date, PyObj.truthy, PyObj.isStr, PyObj.asStr, ht, hl, h]
  · intro h1 h2
    have hs : s ≠ "" := by
      intro e
      subst e
      simp at h1
    have ht : (s != "") = true := by
      simp only [bne_iff_ne, ne_eq]
      exact hs
    have hl : ¬s.length < 8 := by omega
    simp [validate_and_parse_date, PyObj.truthy, PyObj.isStr, PyObj.asStr, ht, hl, h2]

/-- Witness for C8 at concrete inputs discharging each hypothesis. -/
theorem parse_date_correct_witness :
    validate_and_parse_date (.ofStr "2025") = none ∧
    validate_and_parse_date (.ofStr "2025-13-01") = none ∧
    validate_and_parse_date (.ofStr "2025-05-01") =
      some ⟨2025, 5, 1, 0, 0, 0, none⟩ := by
  refine ⟨?_, ?_, ?_⟩
  · exact (parse_date_correct 0 true "2025" ⟨0, 0, 0, 0, 0, 0, none⟩).2.2.2.1
      (by decide)
  · exact (parse_date_correct 0 true "2025-13-01" ⟨0, 0, 0, 0, 0, 0, none⟩).2.2.2.2.1
      (by decide)
  · exact (parse_date_correct 0 true "2025-05-01"
      ⟨2025, 5, 1, 0, 0, 0, none⟩).2.2.2.2.2.1 (by decide) (by decide)
